import Mathlib

/-!
Formalisation of the translation and authentication logic of
`spotify-playlist-dumper`.

The repository contains two copies of the `spotify` package:

* `src/internal/spotify/spotify.go` — the "list variant", whose
  `MusicTrack.Artists` field is a `[]MusicArtist`;
* `src/unnamed/part_002` — the "string variant", whose
  `MusicTrack.Artists` field is a single comma-joined `string`.

Both variants share identical provider-shaped input types
(`SpotifyTrack`, `SpotifyAlbum`, `SpotifyPlaylist`, ...), which are
defined once below.  The two output schemas and conversion functions
are embedded in the namespaces `ListVariant` and `StringVariant`.

Go slices distinguish the `nil` slice from a non-nil (possibly empty)
slice; several output fields rely on that distinction (`omitempty`
fields left `nil` versus fields explicitly initialised to an empty
slice literal).  The embedding models a Go slice with the two-constructor
inductive `GoSlice`: `gonil` is the nil slice, `goslice l` a non-nil
slice holding the elements `l`.  `GoSlice.push s x` models Go
`append(s, x)` (appending to a nil slice allocates a fresh non-nil one).

The token-refresh and client-construction functions perform one HTTP
POST; their logic is embedded as pure functions of the outcome of that
request: `none` models a transport error, `some r` a received response
with its status code and the `access_token` value that
`json.Unmarshal` extracts from the body (`none` inside the body models
an absent field, which Go's unmarshalling leaves at the zero value `""`).
Errors are modelled as `Option String` holding the Go error message.
-/

/-- Model of a Go slice: `gonil` is the nil slice, `goslice l` a
non-nil slice with elements `l`. -/
inductive GoSlice (α : Type) : Type where
  | gonil : GoSlice α
  | goslice : List α → GoSlice α
deriving DecidableEq, Repr

namespace GoSlice

/-- Go `append(s, x)`: appending to a nil slice allocates a non-nil one. -/
def push {α : Type} : GoSlice α → α → GoSlice α
  | .gonil, x => .goslice [x]
  | .goslice l, x => .goslice (l ++ [x])

/-- The elements of a Go slice; the nil slice has none. -/
def toList {α : Type} : GoSlice α → List α
  | .gonil => []
  | .goslice l => l

end GoSlice

/-- SpotifyAlbumImage describes a spotify album image
(`src/internal/spotify/spotify.go:110`). -/
structure SpotifyAlbumImage where
  Height : Int
  Width : Int
  URL : String
deriving DecidableEq, Repr

/-- SpotifyPlaylistImage describes a spotify playlist image
(`src/internal/spotify/spotify.go:127`). -/
structure SpotifyPlaylistImage where
  Height : Int
  Width : Int
  URL : String
deriving DecidableEq, Repr

/-- SpotifyExternalURL describes a spotify external url
(`src/internal/spotify/spotify.go:134`). -/
structure SpotifyExternalURL where
  Spotify : String
deriving DecidableEq, Repr

/-- SpotifyArtist describes a spotify artist
(`src/internal/spotify/spotify.go:139`). -/
structure SpotifyArtist where
  Name : String
  IntegrationID : String
deriving DecidableEq, Repr

mutual
/-- SpotifyTracksResult is just a container struct
(`src/internal/spotify/spotify.go:36`).  It is mutually recursive with
`SpotifyTrack` and `SpotifyAlbum` because an album embeds its track
collection and a track embeds its album. -/
inductive SpotifyTracksResult : Type where
  | mk (Items : List SpotifyTrack)

/-- SpotifyTrack describes a spotify track
(`src/internal/spotify/spotify.go:61`); fields in source order. -/
inductive SpotifyTrack : Type where
  | mk (Album : SpotifyAlbum) (Name PreviewURL TrackURI IntegrationID : String)
       (DurationMS : Int) (ExternalURL : SpotifyExternalURL)
       (Artists : List SpotifyArtist)

/-- SpotifyAlbum describes a spotify album
(`src/internal/spotify/spotify.go:90`); fields in source order. -/
inductive SpotifyAlbum : Type where
  | mk (Name : String) (Images : List SpotifyAlbumImage) (URI : String)
       (ExternalURL : SpotifyExternalURL) (IntegrationID ReleaseDate : String)
       (Artists : List SpotifyArtist) (TracksCollection : SpotifyTracksResult)
end

/-- Accessor for the `Items` field of `SpotifyTracksResult`. -/
def SpotifyTracksResult.Items : SpotifyTracksResult → List SpotifyTrack
  | .mk l => l

/-- Accessor for the `Album` field of `SpotifyTrack`. -/
def SpotifyTrack.Album : SpotifyTrack → SpotifyAlbum
  | .mk a _ _ _ _ _ _ _ => a

/-- Accessor for the `Name` field of `SpotifyTrack`. -/
def SpotifyTrack.Name : SpotifyTrack → String
  | .mk _ n _ _ _ _ _ _ => n

/-- Accessor for the `PreviewURL` field of `SpotifyTrack`. -/
def SpotifyTrack.PreviewURL : SpotifyTrack → String
  | .mk _ _ p _ _ _ _ _ => p

/-- Accessor for the `TrackURI` field of `SpotifyTrack`. -/
def SpotifyTrack.TrackURI : SpotifyTrack → String
  | .mk _ _ _ u _ _ _ _ => u

/-- Accessor for the `IntegrationID` field of `SpotifyTrack`. -/
def SpotifyTrack.IntegrationID : SpotifyTrack → String
  | .mk _ _ _ _ i _ _ _ => i

/-- Accessor for the `DurationMS` field of `SpotifyTrack`. -/
def SpotifyTrack.DurationMS : SpotifyTrack → Int
  | .mk _ _ _ _ _ d _ _ => d

/-- Accessor for the `ExternalURL` field of `SpotifyTrack`. -/
def SpotifyTrack.ExternalURL : SpotifyTrack → SpotifyExternalURL
  | .mk _ _ _ _ _ _ e _ => e

/-- Accessor for the `Artists` field of `SpotifyTrack`. -/
def SpotifyTrack.Artists : SpotifyTrack → List SpotifyArtist
  | .mk _ _ _ _ _ _ _ a => a

/-- Model of the Go assignment `track.Album = sa` on a loop-local copy
of a track (used by `ConvertToMusicAlbum`,
`src/internal/spotify/spotify.go:578`). -/
def SpotifyTrack.setAlbum : SpotifyTrack → SpotifyAlbum → SpotifyTrack
  | .mk _ n p u i d e ar, a => .mk a n p u i d e ar

/-- Accessor for the `Name` field of `SpotifyAlbum`. -/
def SpotifyAlbum.Name : SpotifyAlbum → String
  | .mk n _ _ _ _ _ _ _ => n

/-- Accessor for the `Images` field of `SpotifyAlbum`. -/
def SpotifyAlbum.Images : SpotifyAlbum → List SpotifyAlbumImage
  | .mk _ i _ _ _ _ _ _ => i

/-- Accessor for the `URI` field of `SpotifyAlbum`. -/
def SpotifyAlbum.URI : SpotifyAlbum → String
  | .mk _ _ u _ _ _ _ _ => u

/-- Accessor for the `ExternalURL` field of `SpotifyAlbum`. -/
def SpotifyAlbum.ExternalURL : SpotifyAlbum → SpotifyExternalURL
  | .mk _ _ _ e _ _ _ _ => e

/-- Accessor for the `IntegrationID` field of `SpotifyAlbum`. -/
def SpotifyAlbum.IntegrationID : SpotifyAlbum → String
  | .mk _ _ _ _ i _ _ _ => i

/-- Accessor for the `ReleaseDate` field of `SpotifyAlbum`. -/
def SpotifyAlbum.ReleaseDate : SpotifyAlbum → String
  | .mk _ _ _ _ _ r _ _ => r

/-- Accessor for the `Artists` field of `SpotifyAlbum`. -/
def SpotifyAlbum.Artists : SpotifyAlbum → List SpotifyArtist
  | .mk _ _ _ _ _ _ a _ => a

/-- Accessor for the `TracksCollection` field of `SpotifyAlbum`. -/
def SpotifyAlbum.TracksCollection : SpotifyAlbum → SpotifyTracksResult
  | .mk _ _ _ _ _ _ _ t => t

/-- SpotifyPlaylistTrack is a container struct for playlist tracks
parsing (`src/internal/spotify/spotify.go:46`). -/
structure SpotifyPlaylistTrack where
  Track : SpotifyTrack

/-- SpotifyPlaylistTracks is a container struct for playlist tracks
parsing (`src/internal/spotify/spotify.go:41`). -/
structure SpotifyPlaylistTracks where
  Items : List SpotifyPlaylistTrack

/-- SpotifyPlaylist describes a spotify playlist
(`src/internal/spotify/spotify.go:117`). -/
structure SpotifyPlaylist where
  Name : String
  Images : List SpotifyPlaylistImage
  URI : String
  ExternalURL : SpotifyExternalURL
  IntegrationID : String
  TracksCollection : SpotifyPlaylistTracks

/-- SpotifyAlbumsResult is also a container struct
(`src/internal/spotify/spotify.go:51`). -/
structure SpotifyAlbumsResult where
  Items : List SpotifyAlbum

/-- SpotifyPlaylistsResult is also a container struct
(`src/internal/spotify/spotify.go:56`). -/
structure SpotifyPlaylistsResult where
  Items : List SpotifyPlaylist

/-- SpotifyTrackSearchResult stores the API search response
(`src/internal/spotify/spotify.go:29`). -/
structure SpotifyTrackSearchResult where
  ResultCollection : SpotifyTracksResult
  AlbumCollection : SpotifyAlbumsResult
  PlaylistCollection : SpotifyPlaylistsResult

/-- MusicArtist describes a music artist in a generic way
(`src/internal/spotify/spotify.go:183`, identical in
`src/unnamed/part_002:163`). -/
structure MusicArtist where
  Name : String
  IntegrationID : String
deriving DecidableEq, Repr

namespace ListVariant

/-- MusicTrack of the list variant
(`src/internal/spotify/spotify.go:152`): `Artists` is a
`[]MusicArtist` with `omitempty`. -/
structure MusicTrack where
  Name : String
  PreviewURL : String
  AlbumName : String
  AlbumArt : List SpotifyAlbumImage
  AlbumReleaseDate : String
  IntegrationID : String
  Source : String
  ExternalURL : String
  Artists : GoSlice MusicArtist
deriving DecidableEq, Repr

/-- MusicAlbum of the list variant (`src/internal/spotify/spotify.go:165`). -/
structure MusicAlbum where
  Name : String
  AlbumArt : List SpotifyAlbumImage
  ReleaseDate : String
  Artists : GoSlice MusicArtist
  Tracks : GoSlice MusicTrack
  IntegrationID : String
deriving DecidableEq, Repr

/-- MusicPlaylist of the list variant (`src/internal/spotify/spotify.go:175`). -/
structure MusicPlaylist where
  Name : String
  PlaylistArt : List SpotifyPlaylistImage
  Tracks : GoSlice MusicTrack
  IntegrationID : String
deriving DecidableEq, Repr

/-- MusicSearchResult of the list variant
(`src/internal/spotify/spotify.go:145`). -/
structure MusicSearchResult where
  Tracks : GoSlice MusicTrack
  Albums : GoSlice MusicAlbum
  Playlists : GoSlice MusicPlaylist
deriving DecidableEq, Repr

/-- ConvertToMusicTrack of the list variant
(`src/internal/spotify/spotify.go:604`): copies scalar fields, flattens
the embedded album, sets the constant source tag, explicitly
initialises `Artists` to the empty slice literal, then appends one
`MusicArtist` per source artist. -/
def ConvertToMusicTrack (st : SpotifyTrack) : MusicTrack :=
  let musicTrack : MusicTrack :=
    { Name := st.Name
      PreviewURL := st.PreviewURL
      AlbumName := st.Album.Name
      AlbumArt := st.Album.Images
      AlbumReleaseDate := st.Album.ReleaseDate
      IntegrationID := st.IntegrationID
      Source := "spotify"
      ExternalURL := st.ExternalURL.Spotify
      Artists := .gonil }
  let musicTrack := { musicTrack with Artists := .goslice [] }
  { musicTrack with
      Artists := st.Artists.foldl
        (fun acc artist => acc.push ⟨artist.Name, artist.IntegrationID⟩)
        musicTrack.Artists }

/-- ConvertToMusicPlaylist of the list variant
(`src/internal/spotify/spotify.go:587`): copies scalars and the image
list; when the nested collection is non-empty, appends the conversion
of each wrapper's inner track to the (initially nil) `Tracks` slice. -/
def ConvertToMusicPlaylist (sp : SpotifyPlaylist) : MusicPlaylist :=
  let playlist : MusicPlaylist :=
    { Name := sp.Name
      IntegrationID := sp.IntegrationID
      PlaylistArt := sp.Images
      Tracks := .gonil }
  if sp.TracksCollection.Items.length > 0 then
    { playlist with
        Tracks := sp.TracksCollection.Items.foldl
          (fun acc track => acc.push (ConvertToMusicTrack track.Track))
          playlist.Tracks }
  else
    playlist

/-- ConvertToMusicAlbum of the list variant
(`src/internal/spotify/spotify.go:558`): copies scalars, explicitly
initialises `Artists` to the empty slice literal and appends each
artist; when the nested track collection is non-empty, re-attaches the
parent album to each (loop-local copy of a) track before converting it,
appending to the initially nil `Tracks` slice. -/
def ConvertToMusicAlbum (sa : SpotifyAlbum) : MusicAlbum :=
  let ma : MusicAlbum :=
    { Name := sa.Name
      IntegrationID := sa.IntegrationID
      AlbumArt := sa.Images
      ReleaseDate := sa.ReleaseDate
      Artists := .gonil
      Tracks := .gonil }
  let ma := { ma with Artists := .goslice [] }
  let ma :=
    { ma with
        Artists := sa.Artists.foldl
          (fun acc artist => acc.push ⟨artist.Name, artist.IntegrationID⟩)
          ma.Artists }
  if sa.TracksCollection.Items.length > 0 then
    { ma with
        Tracks := sa.TracksCollection.Items.foldl
          (fun acc track => acc.push (ConvertToMusicTrack (track.setAlbum sa)))
          ma.Tracks }
  else
    ma

/-- NewMusicSearchResultFromSpotify
(`src/internal/spotify/spotify.go:189`): converts a spotify search
result; for each result track it builds a `MusicTrack` whose `Artists`
are appended (to an initially nil slice) from the track's embedded
album's artist list. -/
def NewMusicSearchResultFromSpotify (spotifyResult : SpotifyTrackSearchResult) :
    MusicSearchResult :=
  let msr : MusicSearchResult :=
    { Tracks := .gonil, Albums := .gonil, Playlists := .gonil }
  let msr :=
    { msr with
        Tracks := spotifyResult.ResultCollection.Items.foldl
          (fun acc (track : SpotifyTrack) =>
            let mt : MusicTrack :=
              { Name := track.Name
                PreviewURL := track.PreviewURL
                AlbumName := track.Album.Name
                AlbumArt := track.Album.Images
                AlbumReleaseDate := track.Album.ReleaseDate
                IntegrationID := track.IntegrationID
                Source := "spotify"
                ExternalURL := track.ExternalURL.Spotify
                Artists := .gonil }
            let mt :=
              { mt with
                  Artists := track.Album.Artists.foldl
                    (fun a (artist : SpotifyArtist) => a.push ⟨artist.Name, artist.IntegrationID⟩)
                    mt.Artists }
            acc.push mt)
          msr.Tracks }
  let msr :=
    { msr with
        Albums := spotifyResult.AlbumCollection.Items.foldl
          (fun acc (album : SpotifyAlbum) =>
            let ma : MusicAlbum :=
              { Name := album.Name
                AlbumArt := album.Images
                ReleaseDate := album.ReleaseDate
                IntegrationID := album.IntegrationID
                Artists := .gonil
                Tracks := .gonil }
            let ma :=
              { ma with
                  Artists := album.Artists.foldl
                    (fun a (artist : SpotifyArtist) => a.push ⟨artist.Name, artist.IntegrationID⟩)
                    ma.Artists }
            acc.push ma)
          msr.Albums }
  { msr with
      Playlists := spotifyResult.PlaylistCollection.Items.foldl
        (fun acc (playlist : SpotifyPlaylist) =>
          acc.push
            { Name := playlist.Name
              PlaylistArt := playlist.Images
              IntegrationID := playlist.IntegrationID
              Tracks := .gonil })
        msr.Playlists }

end ListVariant

namespace StringVariant

/-- MusicTrack of the string variant (`src/unnamed/part_002:132`):
`Artists` is a single comma-joined string. -/
structure MusicTrack where
  Name : String
  PreviewURL : String
  AlbumName : String
  AlbumArt : List SpotifyAlbumImage
  AlbumReleaseDate : String
  IntegrationID : String
  Source : String
  ExternalURL : String
  Artists : String
deriving DecidableEq, Repr

/-- MusicPlaylist of the string variant (`src/unnamed/part_002:155`). -/
structure MusicPlaylist where
  Name : String
  PlaylistArt : List SpotifyPlaylistImage
  Tracks : GoSlice MusicTrack
  IntegrationID : String
deriving DecidableEq, Repr

/-- Model of Go `strings.Join(names, sep)` on a possibly-nil slice of
strings: joining the nil slice yields the empty string. -/
def goStringsJoin (s : GoSlice String) (sep : String) : String :=
  String.intercalate sep s.toList

/-- ConvertToMusicTrack of the string variant
(`src/unnamed/part_002:400`): copies scalar fields, flattens the
embedded album, sets the constant source tag, collects artist names
into an initially nil slice and joins them with a comma and a space. -/
def ConvertToMusicTrack (st : SpotifyTrack) : MusicTrack :=
  let musicTrack : MusicTrack :=
    { Name := st.Name
      PreviewURL := st.PreviewURL
      AlbumName := st.Album.Name
      AlbumArt := st.Album.Images
      AlbumReleaseDate := st.Album.ReleaseDate
      IntegrationID := st.IntegrationID
      Source := "spotify"
      ExternalURL := st.ExternalURL.Spotify
      Artists := "" }
  let artistNames : GoSlice String :=
    st.Artists.foldl (fun acc artist => acc.push artist.Name) .gonil
  { musicTrack with Artists := goStringsJoin artistNames ", " }

/-- ConvertToMusicPlaylist of the string variant
(`src/unnamed/part_002:383`): identical control flow to the list
variant, but converting each inner track with the string-variant
`ConvertToMusicTrack`. -/
def ConvertToMusicPlaylist (sp : SpotifyPlaylist) : MusicPlaylist :=
  let playlist : MusicPlaylist :=
    { Name := sp.Name
      IntegrationID := sp.IntegrationID
      PlaylistArt := sp.Images
      Tracks := .gonil }
  if sp.TracksCollection.Items.length > 0 then
    { playlist with
        Tracks := sp.TracksCollection.Items.foldl
          (fun acc track => acc.push (ConvertToMusicTrack track.Track))
          playlist.Tracks }
  else
    playlist

end StringVariant

/-- Parsed JSON body of the token endpoint: `access_token` is `none`
when the field is absent from the body (or the body is malformed), in
which case Go's `json.Unmarshal` leaves the struct field at its zero
value `""` (`src/internal/spotify/spotify.go:24`). -/
structure SpotifyTokenBody where
  access_token : Option String
deriving DecidableEq, Repr

/-- A received response of the token endpoint: status code and parsed
body. -/
structure TokenEndpointResponse where
  StatusCode : Nat
  Body : SpotifyTokenBody
deriving DecidableEq, Repr

/-- Model of `json.Unmarshal(respbody, &spotTokenResp)`
(`src/internal/spotify/spotify.go:303`): an absent `access_token`
field leaves the zero value `""`. -/
def unmarshalAccessToken (b : SpotifyTokenBody) : String :=
  b.access_token.getD ""

/-- Spotify is the struct to control spotify api interactions
(`src/internal/spotify/spotify.go:18`). -/
structure Spotify where
  Token : String
  ClientID : String
  ClientSecret : String
deriving DecidableEq, Repr

/-- refreshSpotifyToken (`src/internal/spotify/spotify.go:279`,
identical logic in `src/unnamed/part_002:197`), as a function of the
token-endpoint outcome (`none` = transport error).  Returns the updated
receiver, the token string, and the Go error (`none` = success):
transport error or non-200 yields `("", "spotify token error")`; a 200
body whose unmarshalled `access_token` is empty yields
`("", "Problems getting spotify access token from JSON")`; otherwise
the token is stored on the receiver and returned with no error. -/
def Spotify.refreshSpotifyToken (o : Spotify)
    (resp : Option TokenEndpointResponse) : Spotify × String × Option String :=
  match resp with
  | none => (o, "", some "spotify token error")
  | some r =>
    if r.StatusCode ≠ 200 then
      (o, "", some "spotify token error")
    else
      let tok := unmarshalAccessToken r.Body
      if tok = "" then
        (o, "", some "Problems getting spotify access token from JSON")
      else
        ({ o with Token := tok }, tok, none)

/-- getToken (`src/internal/spotify/spotify.go:270`): returns the
cached token when one is present, otherwise refreshes. -/
def Spotify.getToken (o : Spotify) (resp : Option TokenEndpointResponse) :
    Spotify × String × Option String :=
  if o.Token.length > 0 then (o, o.Token, none)
  else o.refreshSpotifyToken resp

/-- NewSpotify (`src/internal/spotify/spotify.go:252`, identical logic
in `src/unnamed/part_002:170`): builds a client with an empty token,
acquires a token, and on failure returns no client together with the
error; on success returns the client carrying the token and no error. -/
def NewSpotify (clientID clientSecret : String)
    (resp : Option TokenEndpointResponse) : Option Spotify × Option String :=
  let sp : Spotify := { Token := "", ClientID := clientID, ClientSecret := clientSecret }
  match sp.getToken resp with
  | (_, _, some err) => (none, some err)
  | (sp1, token, none) => (some { sp1 with Token := token }, none)

/-- Pushing onto a non-nil slice appends the element. -/
theorem GoSlice.push_goslice {α : Type} (l : List α) (x : α) :
    GoSlice.push (GoSlice.goslice l) x = GoSlice.goslice (l ++ [x]) := rfl

/-- Pushing onto the nil slice allocates a singleton non-nil slice. -/
theorem GoSlice.push_gonil {α : Type} (x : α) :
    GoSlice.push GoSlice.gonil x = GoSlice.goslice [x] := rfl

/-- Folding `push` over a list starting from a non-nil slice appends
the images of the elements. -/
theorem GoSlice.foldl_push_goslice {α β : Type} (f : β → α) (l : List β) :
    ∀ acc : List α,
      l.foldl (fun s b => GoSlice.push s (f b)) (GoSlice.goslice acc)
        = GoSlice.goslice (acc ++ l.map f) := by
  induction l with
  | nil => intro acc; simp
  | cons b l ih =>
    intro acc
    rw [List.foldl_cons, GoSlice.push_goslice, ih]
    simp

/-- Folding `push` over a list starting from the nil slice yields the
nil slice on the empty list and a non-nil slice of the images
otherwise. -/
theorem GoSlice.foldl_push_gonil {α β : Type} (f : β → α) (l : List β) :
    l.foldl (fun s b => GoSlice.push s (f b)) GoSlice.gonil
      = match l with
        | [] => GoSlice.gonil
        | x :: xs => GoSlice.goslice (f x :: xs.map f) := by
  cases l with
  | nil => rfl
  | cons x xs =>
    rw [List.foldl_cons, GoSlice.push_gonil, GoSlice.foldl_push_goslice]
    simp

/-- The elements collected by folding `push` from the nil slice are the
images of the source list, whether or not the result is nil. -/
theorem GoSlice.foldl_push_gonil_toList {α β : Type} (f : β → α) (l : List β) :
    (l.foldl (fun s b => GoSlice.push s (f b)) GoSlice.gonil).toList = l.map f := by
  rw [GoSlice.foldl_push_gonil]
  cases l with
  | nil => rfl
  | cons x xs => rfl

/-- Folding `push` from the explicit empty (non-nil) slice yields a
non-nil slice of the images. -/
theorem GoSlice.foldl_push_empty {α β : Type} (f : β → α) (l : List β) :
    l.foldl (fun s b => GoSlice.push s (f b)) (GoSlice.goslice [])
      = GoSlice.goslice (l.map f) := by
  rw [GoSlice.foldl_push_goslice]
  simp

/-- The `Artists` field produced by the list-variant
`ConvertToMusicTrack` is always a non-nil slice holding one
`MusicArtist` per source artist, in source order. -/
theorem ListVariant.ConvertToMusicTrack_Artists (st : SpotifyTrack) :
    (ListVariant.ConvertToMusicTrack st).Artists
      = GoSlice.goslice
          (st.Artists.map (fun a => MusicArtist.mk a.Name a.IntegrationID)) := by
  simp only [ListVariant.ConvertToMusicTrack]
  rw [GoSlice.foldl_push_empty]

/-- Scalar fields of the list-variant `ConvertToMusicTrack` are copied
from the source track and its embedded album. -/
theorem ListVariant.ConvertToMusicTrack_scalars (st : SpotifyTrack) :
    (ListVariant.ConvertToMusicTrack st).Name = st.Name
      ∧ (ListVariant.ConvertToMusicTrack st).AlbumName = st.Album.Name
      ∧ (ListVariant.ConvertToMusicTrack st).AlbumArt = st.Album.Images
      ∧ (ListVariant.ConvertToMusicTrack st).AlbumReleaseDate = st.Album.ReleaseDate
      ∧ (ListVariant.ConvertToMusicTrack st).IntegrationID = st.IntegrationID
      ∧ (ListVariant.ConvertToMusicTrack st).Source = "spotify"
      ∧ (ListVariant.ConvertToMusicTrack st).ExternalURL = st.ExternalURL.Spotify := by
  simp [ListVariant.ConvertToMusicTrack]

/-- Re-attaching an album to a track replaces exactly the `Album`
field. -/
theorem SpotifyTrack.setAlbum_Album (t : SpotifyTrack) (a : SpotifyAlbum) :
    (t.setAlbum a).Album = a := by
  cases t
  rfl

/-- Characterisation of the `Tracks` field of the list-variant
`ConvertToMusicPlaylist`: nil when the nested collection is empty,
otherwise a non-nil slice of the converted inner tracks in order. -/
theorem ListVariant.ConvertToMusicPlaylist_Tracks (sp : SpotifyPlaylist) :
    (ListVariant.ConvertToMusicPlaylist sp).Tracks
      = match sp.TracksCollection.Items with
        | [] => GoSlice.gonil
        | x :: xs =>
            GoSlice.goslice
              (ListVariant.ConvertToMusicTrack x.Track
                :: xs.map (fun w => ListVariant.ConvertToMusicTrack w.Track)) := by
  simp only [ListVariant.ConvertToMusicPlaylist]
  cases h : sp.TracksCollection.Items with
  | nil => simp [h]
  | cons x xs =>
    rw [if_pos (by simp)]
    simp only [List.foldl_cons, GoSlice.push_gonil]
    rw [GoSlice.foldl_push_goslice]
    simp

/-- The elements of the `Tracks` field of the list-variant
`ConvertToMusicPlaylist` are the conversions of the nested wrapper
entries' inner tracks, in order. -/
theorem ListVariant.ConvertToMusicPlaylist_Tracks_toList (sp : SpotifyPlaylist) :
    ((ListVariant.ConvertToMusicPlaylist sp).Tracks).toList
      = sp.TracksCollection.Items.map
          (fun w => ListVariant.ConvertToMusicTrack w.Track) := by
  rw [ListVariant.ConvertToMusicPlaylist_Tracks]
  cases sp.TracksCollection.Items with
  | nil => rfl
  | cons x xs => rfl

/-- Characterisation of the `Tracks` field of the string-variant
`ConvertToMusicPlaylist`. -/
theorem StringVariant.ConvertToMusicPlaylist_Tracks_sv (sp : SpotifyPlaylist) :
    (StringVariant.ConvertToMusicPlaylist sp).Tracks
      = match sp.TracksCollection.Items with
        | [] => GoSlice.gonil
        | x :: xs =>
            GoSlice.goslice
              (StringVariant.ConvertToMusicTrack x.Track
                :: xs.map (fun w => StringVariant.ConvertToMusicTrack w.Track)) := by
  simp only [StringVariant.ConvertToMusicPlaylist]
  cases h : sp.TracksCollection.Items with
  | nil => simp [h]
  | cons x xs =>
    rw [if_pos (by simp)]
    simp only [List.foldl_cons, GoSlice.push_gonil]
    rw [GoSlice.foldl_push_goslice]
    simp

/-- The elements of the `Tracks` field of the string-variant
`ConvertToMusicPlaylist`, in order. -/
theorem StringVariant.ConvertToMusicPlaylist_Tracks_toList_sv (sp : SpotifyPlaylist) :
    ((StringVariant.ConvertToMusicPlaylist sp).Tracks).toList
      = sp.TracksCollection.Items.map
          (fun w => StringVariant.ConvertToMusicTrack w.Track) := by
  rw [StringVariant.ConvertToMusicPlaylist_Tracks_sv]
  cases sp.TracksCollection.Items with
  | nil => rfl
  | cons x xs => rfl

/-- The `Artists` field produced by `ConvertToMusicAlbum` is always a
non-nil slice holding one `MusicArtist` per source artist, in order. -/
theorem ListVariant.ConvertToMusicAlbum_Artists (sa : SpotifyAlbum) :
    (ListVariant.ConvertToMusicAlbum sa).Artists
      = GoSlice.goslice
          (sa.Artists.map (fun a => MusicArtist.mk a.Name a.IntegrationID)) := by
  simp only [ListVariant.ConvertToMusicAlbum]
  cases h : sa.TracksCollection.Items with
  | nil => simp [h, GoSlice.foldl_push_empty]
  | cons x xs =>
    rw [if_pos (by simp)]
    simp [GoSlice.foldl_push_empty]

/-- The elements of the `Tracks` field of `ConvertToMusicAlbum` are the
conversions of the nested tracks with the parent album re-attached, in
order. -/
theorem ListVariant.ConvertToMusicAlbum_Tracks_toList (sa : SpotifyAlbum) :
    ((ListVariant.ConvertToMusicAlbum sa).Tracks).toList
      = sa.TracksCollection.Items.map
          (fun t => ListVariant.ConvertToMusicTrack (t.setAlbum sa)) := by
  simp only [ListVariant.ConvertToMusicAlbum]
  cases h : sa.TracksCollection.Items with
  | nil => simp [h, GoSlice.toList]
  | cons x xs =>
    rw [if_pos (by simp)]
    simp only [List.foldl_cons, GoSlice.push_gonil]
    rw [GoSlice.foldl_push_goslice]
    simp [GoSlice.toList]

/-- Album "Al1" of the end-to-end scenario in the spec: empty image
list, release date "2020-01-01"; the remaining fields are absent from
the payload and therefore zero-valued. -/
def sampleAlbum : SpotifyAlbum :=
  .mk "Al1" [] "" ⟨""⟩ "" "2020-01-01" [] (.mk [])

/-- Track "Song A" of the end-to-end scenario in the spec: id "t1",
external url "url1", album `sampleAlbum`, a single artist "Artist X". -/
def sampleTrack : SpotifyTrack :=
  .mk sampleAlbum "Song A" "" "" "t1" 0 ⟨"url1"⟩ [⟨"Artist X", ""⟩]

/-- Playlist "Road Trip" of the end-to-end scenario in the spec: id
"abc123", empty image list, one nested track wrapper around
`sampleTrack`. -/
def roadTripPlaylist : SpotifyPlaylist :=
  { Name := "Road Trip", Images := [], URI := "", ExternalURL := ⟨""⟩,
    IntegrationID := "abc123", TracksCollection := ⟨[⟨sampleTrack⟩]⟩ }

/-- A playlist whose nested track collection is empty. -/
def emptyPlaylist : SpotifyPlaylist :=
  { Name := "Empty", Images := [], URI := "", ExternalURL := ⟨""⟩,
    IntegrationID := "pl0", TracksCollection := ⟨[]⟩ }

/-- An album with no fields set: the zero value of the embedded album
inside a track-within-album payload. -/
def zeroAlbum : SpotifyAlbum :=
  .mk "" [] "" ⟨""⟩ "" "" [] (.mk [])

/-- A track as it appears nested inside an album payload: its own
embedded album is the zero value. -/
def innerTrack : SpotifyTrack :=
  .mk zeroAlbum "Inner Song" "" "" "in1" 0 ⟨""⟩ [⟨"Band", "b1"⟩]

/-- An album carrying one nested track (`innerTrack`) whose embedded
album is empty. -/
def parentAlbum : SpotifyAlbum :=
  .mk "Greatest Hits" [⟨640, 640, "http://img"⟩] "" ⟨""⟩ "alb1" "1999-09-09"
    [⟨"Band", "b1"⟩] (.mk [innerTrack])

/-- C1: for every playlist whose nested collection holds N wrapper
entries, both variants' `ConvertToMusicPlaylist` return a playlist
whose `Tracks` hold exactly N entries, the i-th being the conversion of
the i-th wrapper's inner track: the element list of the output equals
the map of `ConvertToMusicTrack` over the inner tracks, in order, and
in particular has the same length. -/
theorem convertToMusicPlaylist_preserves_track_list (sp : SpotifyPlaylist) :
    ((ListVariant.ConvertToMusicPlaylist sp).Tracks).toList
        = sp.TracksCollection.Items.map
            (fun w => ListVariant.ConvertToMusicTrack w.Track)
      ∧ ((StringVariant.ConvertToMusicPlaylist sp).Tracks).toList
        = sp.TracksCollection.Items.map
            (fun w => StringVariant.ConvertToMusicTrack w.Track)
      ∧ ((ListVariant.ConvertToMusicPlaylist sp).Tracks).toList.length
        = sp.TracksCollection.Items.length
      ∧ ((StringVariant.ConvertToMusicPlaylist sp).Tracks).toList.length
        = sp.TracksCollection.Items.length := by
  refine ⟨ListVariant.ConvertToMusicPlaylist_Tracks_toList sp,
          StringVariant.ConvertToMusicPlaylist_Tracks_toList_sv sp, ?_, ?_⟩
  · rw [ListVariant.ConvertToMusicPlaylist_Tracks_toList sp, List.length_map]
  · rw [StringVariant.ConvertToMusicPlaylist_Tracks_toList_sv sp, List.length_map]

/-- C3: for every track, the artist representation of the converted
track holds each source artist's name exactly once in source order: in
the list variant, the `Artists` elements' names are the map of the
source names; in the string variant, `Artists` is the source names
joined with a comma and a space. -/
theorem convertToMusicTrack_artist_names (st : SpotifyTrack) :
    ((ListVariant.ConvertToMusicTrack st).Artists).toList.map MusicArtist.Name
        = st.Artists.map SpotifyArtist.Name
      ∧ (StringVariant.ConvertToMusicTrack st).Artists
        = String.intercalate ", " (st.Artists.map SpotifyArtist.Name) := by
  constructor
  · rw [ListVariant.ConvertToMusicTrack_Artists]
    simp [GoSlice.toList]
  · simp only [StringVariant.ConvertToMusicTrack, StringVariant.goStringsJoin]
    rw [GoSlice.foldl_push_gonil_toList]

/-- C6: for every playlist whose nested collection is empty, both
variants' `ConvertToMusicPlaylist` (total functions, so the conversion
always succeeds) leave the output `Tracks` field at the nil slice — the
Go zero value omitted from JSON — never a populated list. -/
theorem convertToMusicPlaylist_empty_gives_nil_tracks (sp : SpotifyPlaylist)
    (h : sp.TracksCollection.Items = []) :
    (ListVariant.ConvertToMusicPlaylist sp).Tracks = GoSlice.gonil
      ∧ (StringVariant.ConvertToMusicPlaylist sp).Tracks = GoSlice.gonil := by
  constructor
  · rw [ListVariant.ConvertToMusicPlaylist_Tracks, h]
  · rw [StringVariant.ConvertToMusicPlaylist_Tracks_sv, h]

/-- C6 witness: the conversion of a concrete playlist with zero nested
tracks leaves `Tracks` nil in both variants. -/
theorem convertToMusicPlaylist_empty_gives_nil_tracks_holds :
    (ListVariant.ConvertToMusicPlaylist emptyPlaylist).Tracks = GoSlice.gonil
      ∧ (StringVariant.ConvertToMusicPlaylist emptyPlaylist).Tracks = GoSlice.gonil :=
  convertToMusicPlaylist_empty_gives_nil_tracks emptyPlaylist rfl

/-- C7: every track of a converted album carries the parent album's
name, images and release date, because `ConvertToMusicAlbum` re-attaches
the parent album to each nested track before converting it — regardless
of what (possibly empty) album was embedded in the nested track payload. -/
theorem convertToMusicAlbum_reattaches_parent_album (sa : SpotifyAlbum)
    (mt : ListVariant.MusicTrack)
    (hmem : mt ∈ ((ListVariant.ConvertToMusicAlbum sa).Tracks).toList) :
    mt.AlbumName = sa.Name
      ∧ mt.AlbumArt = sa.Images
      ∧ mt.AlbumReleaseDate = sa.ReleaseDate := by
  rw [ListVariant.ConvertToMusicAlbum_Tracks_toList] at hmem
  rcases List.mem_map.mp hmem with ⟨t, -, rfl⟩
  refine ⟨?_, ?_, ?_⟩ <;>
    simp [ListVariant.ConvertToMusicTrack, SpotifyTrack.setAlbum_Album]

/-- C7 witness: converting a concrete album holding one nested track
whose embedded album is empty yields a track carrying the parent
album's name, images and release date. -/
theorem convertToMusicAlbum_reattaches_parent_album_holds :
    (ListVariant.ConvertToMusicTrack (innerTrack.setAlbum parentAlbum)).AlbumName
        = parentAlbum.Name
      ∧ (ListVariant.ConvertToMusicTrack (innerTrack.setAlbum parentAlbum)).AlbumArt
        = parentAlbum.Images
      ∧ (ListVariant.ConvertToMusicTrack (innerTrack.setAlbum parentAlbum)).AlbumReleaseDate
        = parentAlbum.ReleaseDate :=
  convertToMusicAlbum_reattaches_parent_album parentAlbum
    (ListVariant.ConvertToMusicTrack (innerTrack.setAlbum parentAlbum))
    (by decide)

/-- C2 (counterexample): the spec's end-to-end literal leaves the
output track's `IntegrationID` unmentioned — in a Go composite literal
that is the zero value `""` — but the conversion copies the input
track's id `"t1"` into it, so the claimed equality fails on the
scenario input. -/
theorem roadTrip_spec_literal_mismatch :
    StringVariant.ConvertToMusicPlaylist roadTripPlaylist ≠
      { Name := "Road Trip", PlaylistArt := [],
        Tracks := GoSlice.goslice
          [{ Name := "Song A", PreviewURL := "", AlbumName := "Al1",
             AlbumArt := [], AlbumReleaseDate := "2020-01-01",
             IntegrationID := "", Source := "spotify",
             ExternalURL := "url1", Artists := "Artist X" }],
        IntegrationID := "abc123" } := by decide

/-- C2 (amended): on the scenario input the string-variant conversion
returns exactly the claimed playlist, except that the output track
additionally carries `IntegrationID = "t1"`, copied from the input
track's id. -/
theorem roadTrip_conversion_output :
    StringVariant.ConvertToMusicPlaylist roadTripPlaylist =
      { Name := "Road Trip", PlaylistArt := [],
        Tracks := GoSlice.goslice
          [{ Name := "Song A", PreviewURL := "", AlbumName := "Al1",
             AlbumArt := [], AlbumReleaseDate := "2020-01-01",
             IntegrationID := "t1", Source := "spotify",
             ExternalURL := "url1", Artists := "Artist X" }],
        IntegrationID := "abc123" } := by decide

/-- C4: a 200 token-endpoint response whose body carries an absent or
empty `access_token` makes `refreshSpotifyToken` return the empty
string together with an error — a fatal failure exactly like a non-200
response; no such response yields a success result. -/
theorem refreshSpotifyToken_rejects_empty_access_token (o : Spotify)
    (r : TokenEndpointResponse) (hs : r.StatusCode = 200)
    (hb : r.Body.access_token = none ∨ r.Body.access_token = some "") :
    (o.refreshSpotifyToken (some r)).2.1 = ""
      ∧ ((o.refreshSpotifyToken (some r)).2.2).isSome = true := by
  have htok : unmarshalAccessToken r.Body = "" := by
    rcases hb with h | h <;> simp [unmarshalAccessToken, h]
  simp [Spotify.refreshSpotifyToken, hs, htok]

/-- C4 witness: a concrete 200 response with an empty access_token
field is rejected with an error and the empty token. -/
theorem refreshSpotifyToken_rejects_empty_access_token_holds :
    (Spotify.refreshSpotifyToken ⟨"", "id", "secret"⟩
        (some ⟨200, ⟨some ""⟩⟩)).2.1 = ""
      ∧ ((Spotify.refreshSpotifyToken ⟨"", "id", "secret"⟩
          (some ⟨200, ⟨some ""⟩⟩)).2.2).isSome = true :=
  refreshSpotifyToken_rejects_empty_access_token ⟨"", "id", "secret"⟩
    ⟨200, ⟨some ""⟩⟩ rfl (Or.inr rfl)

/-- C5: whenever token acquisition fails — the token endpoint errors in
transit or answers with a non-200 status — `NewSpotify` returns no
client together with an error, so no API client is ever handed to the
caller after a failed authentication. -/
theorem newSpotify_fails_closed_on_token_error (clientID clientSecret : String)
    (resp : Option TokenEndpointResponse)
    (h : resp = none ∨ ∃ r, resp = some r ∧ r.StatusCode ≠ 200) :
    (NewSpotify clientID clientSecret resp).1 = none
      ∧ ((NewSpotify clientID clientSecret resp).2).isSome = true := by
  rcases h with h | ⟨r, hr, hs⟩
  · subst h
    simp [NewSpotify, Spotify.getToken, Spotify.refreshSpotifyToken]
  · subst hr
    simp [NewSpotify, Spotify.getToken, Spotify.refreshSpotifyToken, hs]

/-- C5 witness: a transport error on the token request leaves the
caller with no client and an error. -/
theorem newSpotify_fails_closed_on_token_error_holds :
    (NewSpotify "id" "secret" none).1 = none
      ∧ ((NewSpotify "id" "secret" none).2).isSome = true :=
  newSpotify_fails_closed_on_token_error "id" "secret" none (Or.inl rfl)

/-- C8: the translation functions of both variants are deterministic:
two calls on equal inputs return equal outputs.  The Go bodies write
only to local values and freshly allocated slices — they never write
through the input argument or any global — which is what justifies
embedding them as pure functions of their argument; under that
embedding the input is unchanged by construction and the output depends
only on the argument. -/
theorem translation_functions_deterministic
    (ta tb : SpotifyTrack) (pa pb : SpotifyPlaylist) (aa ab : SpotifyAlbum)
    (ht : ta = tb) (hp : pa = pb) (ha : aa = ab) :
    ListVariant.ConvertToMusicTrack ta = ListVariant.ConvertToMusicTrack tb
      ∧ ListVariant.ConvertToMusicPlaylist pa = ListVariant.ConvertToMusicPlaylist pb
      ∧ ListVariant.ConvertToMusicAlbum aa = ListVariant.ConvertToMusicAlbum ab
      ∧ StringVariant.ConvertToMusicTrack ta = StringVariant.ConvertToMusicTrack tb
      ∧ StringVariant.ConvertToMusicPlaylist pa = StringVariant.ConvertToMusicPlaylist pb := by
  subst ht; subst hp; subst ha
  exact ⟨rfl, rfl, rfl, rfl, rfl⟩

/-- C8 witness: determinism instantiated at the concrete scenario
inputs. -/
theorem translation_functions_deterministic_holds :
    ListVariant.ConvertToMusicTrack sampleTrack = ListVariant.ConvertToMusicTrack sampleTrack
      ∧ ListVariant.ConvertToMusicPlaylist roadTripPlaylist
        = ListVariant.ConvertToMusicPlaylist roadTripPlaylist
      ∧ ListVariant.ConvertToMusicAlbum parentAlbum
        = ListVariant.ConvertToMusicAlbum parentAlbum
      ∧ StringVariant.ConvertToMusicTrack sampleTrack
        = StringVariant.ConvertToMusicTrack sampleTrack
      ∧ StringVariant.ConvertToMusicPlaylist roadTripPlaylist
        = StringVariant.ConvertToMusicPlaylist roadTripPlaylist :=
  translation_functions_deterministic sampleTrack sampleTrack
    roadTripPlaylist roadTripPlaylist parentAlbum parentAlbum rfl rfl rfl

/-- C9: in `NewMusicSearchResultFromSpotify` every output track's
`Artists` list is built from the track's embedded album's artist list
(`track.Album.Artists`), not from the track's own artist list; and
there is a track — one whose own artists differ from its album's
artists — on which this translation and `ConvertToMusicTrack` disagree
about the artist representation. -/
theorem newMusicSearchResult_artists_from_album :
    (∀ r : SpotifyTrackSearchResult,
        ((ListVariant.NewMusicSearchResultFromSpotify r).Tracks).toList.map
            (fun mt => mt.Artists.toList)
          = r.ResultCollection.Items.map
              (fun t => t.Album.Artists.map
                (fun a => MusicArtist.mk a.Name a.IntegrationID)))
      ∧ ∃ st : SpotifyTrack,
          ((ListVariant.NewMusicSearchResultFromSpotify
              ⟨.mk [st], ⟨[]⟩, ⟨[]⟩⟩).Tracks).toList.map (fun mt => mt.Artists.toList)
            ≠ [((ListVariant.ConvertToMusicTrack st).Artists).toList] := by
  constructor
  · intro r
    simp only [ListVariant.NewMusicSearchResultFromSpotify]
    rw [GoSlice.foldl_push_gonil_toList, List.map_map]
    refine List.map_congr_left ?_
    intro t _
    simp only [Function.comp_apply]
    rw [GoSlice.foldl_push_gonil_toList]
  · exact ⟨sampleTrack, by decide⟩

/-- C10: in the list variant the `Artists` field of a converted track
or album is always a non-nil slice (the explicit empty slice literal
when the source has zero artists), whereas a converted playlist's
`Tracks` field is the nil slice exactly when the source collection is
empty — `goslice` and `gonil` being distinct constructors of the slice
model. -/
theorem listVariant_artists_always_initialised :
    (∀ st : SpotifyTrack,
        (ListVariant.ConvertToMusicTrack st).Artists
          = GoSlice.goslice
              (st.Artists.map (fun a => MusicArtist.mk a.Name a.IntegrationID)))
      ∧ (∀ sa : SpotifyAlbum,
          (ListVariant.ConvertToMusicAlbum sa).Artists
            = GoSlice.goslice
                (sa.Artists.map (fun a => MusicArtist.mk a.Name a.IntegrationID)))
      ∧ (∀ sp : SpotifyPlaylist,
          (ListVariant.ConvertToMusicPlaylist sp).Tracks
            = match sp.TracksCollection.Items with
              | [] => GoSlice.gonil
              | x :: xs =>
                  GoSlice.goslice
                    (ListVariant.ConvertToMusicTrack x.Track
                      :: xs.map (fun w => ListVariant.ConvertToMusicTrack w.Track))) :=
  ⟨ListVariant.ConvertToMusicTrack_Artists,
   ListVariant.ConvertToMusicAlbum_Artists,
   ListVariant.ConvertToMusicPlaylist_Tracks⟩
